import Mathlib

/-!
Verification of the stack-based virtual-node tree builder in `src/macros.rs`
(the runtime half of the `html!` template macro).

The node model (`VNode` with the `VTag`, `VList`, `VText`, `VComp`, `VRef`
variants) lives in the crate's `virtual_dom` module, which is not part of the
source under verification; it is modelled here from the specification's data
model: a `Tag` carries a name, an optional namespace, an ordered attribute
map, a class list, optional value and kind fields, a checked flag, a listener
list (listeners are opaque to this subsystem and are represented by numeric
tags) and an ordered child list.  `Component` and `Reference` payloads are
opaque and represented by a numeric handle.

The Rust `Vec< VNode>` stack is embedded as a Lean `List VNode` whose HEAD is
the TOP of the stack (`Vec::push`/`Vec::pop`/`last_mut` act on the head of
the list).  Rust `panic!` is embedded as `Except.error` carrying the panic
message; where the Rust message interpolates a `Debug` rendering of a node,
the rendering is abstracted to the variant's name.
-/

namespace Yew

inductive VNode : Type where
  | VTag (tag : String) (ns : Option String)
      (attributes : List (String × String)) (classes : List String)
      (value : Option String) (kind : Option String) (checked : Bool)
      (listeners : List Nat) (childs : List VNode)
  | VList (childs : List VNode)
  | VText (text : String)
  | VComp (comp : Nat)
  | VRef (node : Nat)

/-- True exactly on the `VTag` variant. -/
def VNode.isTag : VNode → Bool
  | VNode.VTag _ _ _ _ _ _ _ _ _ => true
  | _ => false

/-- The explicit namespace carried by a node: the `ns` field of a `VTag`,
`none` for every other variant (only tags carry a namespace). -/
def VNode.tagNs : VNode → Option String
  | VNode.VTag _ ns _ _ _ _ _ _ _ => ns
  | _ => none

/-- The variant's name, standing in for Rust's `Debug` rendering inside
panic messages (the claims never inspect that part of a message). -/
def VNode.variantName : VNode → String
  | VNode.VTag _ _ _ _ _ _ _ _ _ => "VTag"
  | VNode.VList _ => "VList"
  | VNode.VText _ => "VText"
  | VNode.VComp _ => "VComp"
  | VNode.VRef _ => "VRef"

/-- Rust's `Debug` rendering of an `Option<&str>`, used by the
"redundant closing tag: {:?}" panic message. -/
def fmt_debug_opt : Option String → String
  | none => "None"
  | some s => "Some(\"" ++ s ++ "\")"

/-- ASCII-lowercase a string character by character; `Char.toLower` lowers
exactly the ASCII range, matching Rust's `to_ascii_lowercase`. -/
def to_ascii_lowercase (s : String) : String :=
  String.mk (s.data.map Char.toLower)

/-- Embedding of Rust's `str::eq_ignore_ascii_case`. -/
def eq_ignore_ascii_case (a b : String) : Bool :=
  to_ascii_lowercase a == to_ascii_lowercase b

/-- Modelled from the spec: `addAttribute` "sets/overwrites the named
attribute" in an insertion-ordered attribute map (the `VTag::add_attribute`
method of the `virtual_dom` module is not under src/).  An existing entry is
overwritten in place, a new entry is appended at the end. -/
def set_attr (attrs : List (String × String)) (name value : String) :
    List (String × String) :=
  match attrs with
  | [] => [(name, value)]
  | (n, v) :: rest =>
    if n == name then (n, value) :: rest
    else (n, v) :: set_attr rest name value

/-- Lookup in the ordered attribute map (first entry with the name wins). -/
def get_attribute (attrs : List (String × String)) (name : String) :
    Option String :=
  match attrs with
  | [] => none
  | (n, v) :: rest => if n == name then some v else get_attribute rest name

/-- Whether the ordered attribute map carries an entry with this name. -/
def has_attribute (attrs : List (String × String)) (name : String) : Bool :=
  attrs.any (fun p => p.fst == name)

/-- The attribute map of the node at the top of the stack (empty when the
stack is empty or its top is not a tag); used only to state properties. -/
def top_attributes : List VNode → List (String × String)
  | VNode.VTag _ _ attrs _ _ _ _ _ _ :: _ => attrs
  | _ => []

/-- Modelled from the spec: `VTag::new` (in `virtual_dom`, not under src/)
constructs a tag with the given name and optional namespace and otherwise
empty attributes, classes, listeners and children and default value, kind
and checked fields. -/
def vtag_new (tag : String) (ns : Option String) : VNode :=
  VNode.VTag tag ns [] [] none none false [] []

/-- Embedding of the `html_impl!` rule for an opening `< svg` token
(src/macros.rs:71-75): push a tag named "svg" whose namespace is already the
fixed SVG namespace URI. -/
def open_svg_rule (stack : List VNode) : List VNode :=
  vtag_new "svg" (some "http://www.w3.org/2000/svg") :: stack

/-- Embedding of the generic `html_impl!` rule for an opening `< ident` token
(src/macros.rs:78-82): push a tag with the stringified identifier as name and
no namespace. -/
def open_tag_rule (stack : List VNode) (starttag : String) : List VNode :=
  vtag_new starttag none :: stack

mutual

/-- Embedding of the inner `proliferate_namespaces` function of `unpack`
(src/macros.rs:354-375): a tag that already carries a namespace keeps it and
passes it to its children; a tag without one adopts the inherited namespace
(in the source this is the conditional assignment to `tag.ns`; in both
branches the tag's resulting namespace equals `current_ns`); a list passes
the inherited namespace through unchanged; text, component and reference
nodes are untouched. -/
def proliferate_namespaces (node : VNode) (ns : Option String) : VNode :=
  match node with
  | VNode.VTag tag tag_ns attrs cls v k c ls childs =>
    let current_ns : Option String :=
      match tag_ns with
      | some t => some t
      | none => ns
    VNode.VTag tag current_ns attrs cls v k c ls
      (proliferate_childs childs current_ns)
  | VNode.VList childs => VNode.VList (proliferate_childs childs ns)
  | VNode.VText s => VNode.VText s
  | VNode.VComp i => VNode.VComp i
  | VNode.VRef i => VNode.VRef i

/-- The `for child in childs` loops of `proliferate_namespaces`, recursing
into each child with the namespace computed by the parent. -/
def proliferate_childs (childs : List VNode) (ns : Option String) :
    List VNode :=
  match childs with
  | [] => []
  | child :: rest =>
    proliferate_namespaces child ns :: proliferate_childs rest ns

end

/-- The fixed `LENGTH_ERROR` message of `unpack` (src/macros.rs:344). -/
def LENGTH_ERROR : String := "html must contain exactly one element!"

/-- Embedding of `unpack` (src/macros.rs:343-379): panics with the fixed
message unless the stack holds exactly one node; otherwise pops that node,
runs the namespace-propagation pass over it with no inherited namespace and
returns it.  The second error arm mirrors `pop().expect(LENGTH_ERROR)` and
is unreachable. -/
def unpack (stack : List VNode) : Except String VNode :=
  if stack.length ≠ 1 then Except.error LENGTH_ERROR
  else
    match stack with
    | [node] => Except.ok (proliferate_namespaces node none)
    | _ => Except.error LENGTH_ERROR

/-- The expansion of the whole empty template: `html! {}` starts from an
empty stack, the empty token sequence matches only the end-of-input rule
(src/macros.rs:323-325), which calls `unpack` on the still-empty stack. -/
def html_empty_template : Except String VNode := unpack []

/-- Embedding of `set_value_or_attribute` (src/macros.rs:384-395): on a tag
named "input" or "textarea" (ASCII-case-insensitively) set the value field
(`VTag::set_value`, modelled from the spec as storing the string in the
tag's value field); on any other tag add a generic "value" attribute; panic
when the stack's top is not a tag. -/
def set_value_or_attribute (stack : List VNode) (value : String) :
    Except String (List VNode) :=
  match stack with
  | VNode.VTag tag ns attrs cls v k c ls childs :: rest =>
    if eq_ignore_ascii_case tag "input" || eq_ignore_ascii_case tag "textarea" then
      Except.ok (VNode.VTag tag ns attrs cls (some value) k c ls childs :: rest)
    else
      Except.ok
        (VNode.VTag tag ns (set_attr attrs "value" value) cls v k c ls childs :: rest)
  | _ => Except.error ("no tag to set value: " ++ value)

/-- Embedding of `add_attribute` (src/macros.rs:430-436): set the named
attribute on the tag at the top of the stack (`VTag::add_attribute` is
modelled from the spec as set/overwrite, see `set_attr`); panic when the
top is not a tag. -/
def add_attribute (stack : List VNode) (name value : String) :
    Except String (List VNode) :=
  match stack with
  | VNode.VTag tag ns attrs cls v k c ls childs :: rest =>
    Except.ok
      (VNode.VTag tag ns (set_attr attrs name value) cls v k c ls childs :: rest)
  | _ => Except.error ("no tag to set attribute: " ++ name)

/-- Embedding of the `html_impl!` rule for `disabled = expr,`
(src/macros.rs:122-127): call `add_attribute "disabled" "true"` when the
expression is truthy, leave the stack untouched otherwise. -/
def disabled_rule (stack : List VNode) (kind : Bool) :
    Except String (List VNode) :=
  if kind then add_attribute stack "disabled" "true" else Except.ok stack

/-- Embedding of the `html_impl!` rule for `selected = expr,`
(src/macros.rs:128-133): call `add_attribute "selected" "selected"` when the
expression is truthy, leave the stack untouched otherwise. -/
def selected_rule (stack : List VNode) (kind : Bool) :
    Except String (List VNode) :=
  if kind then add_attribute stack "selected" "selected" else Except.ok stack

/-- Embedding of `append_class` (src/macros.rs:439-445): append one class
token to the tag at the top of the stack (`VTag::add_class` is modelled from
the spec: "append each as a class token (additive)"); panic when the top is
not a tag. -/
def append_class (stack : List VNode) (cl : String) :
    Except String (List VNode) :=
  match stack with
  | VNode.VTag tag ns attrs cls v k c ls childs :: rest =>
    Except.ok (VNode.VTag tag ns attrs (cls ++ [cl]) v k c ls childs :: rest)
  | _ => Except.error ("no tag to attach class: " ++ cl)

/-- Embedding of `set_classes` (src/macros.rs:448-454): replace the whole
class attribute of the tag at the top of the stack with the given value
(`VTag::set_classes` is modelled from the spec: "replace the class attribute
wholesale"); panic when the top is not a tag. -/
def set_classes (stack : List VNode) (classes : String) :
    Except String (List VNode) :=
  match stack with
  | VNode.VTag tag ns attrs _ v k c ls childs :: rest =>
    Except.ok (VNode.VTag tag ns attrs [classes] v k c ls childs :: rest)
  | _ => Except.error ("no tag to set classes: " ++ classes)

/-- Embedding of the `html_impl!` rule for `class = (e1, e2, ...),`
(src/macros.rs:92-95): one `append_class` call per listed expression, left
to right. -/
def class_list_rule (stack : List VNode) (classes : List String) :
    Except String (List VNode) :=
  match classes with
  | [] => Except.ok stack
  | cl :: rest =>
    match append_class stack cl with
    | Except.ok stack2 => class_list_rule stack2 rest
    | Except.error e => Except.error e

/-- Embedding of `add_child` (src/macros.rs:469-481): append the child to
the children of the tag or list at the top of the stack (the `add_child`
methods of `VTag` and `VList` are modelled from the spec as appending to the
ordered child list); panic on any other top and on an empty stack. -/
def add_child (stack : List VNode) (child : VNode) :
    Except String (List VNode) :=
  match stack with
  | VNode.VTag tag ns attrs cls v k c ls childs :: rest =>
    Except.ok (VNode.VTag tag ns attrs cls v k c ls (childs ++ [child]) :: rest)
  | VNode.VList childs :: rest =>
    Except.ok (VNode.VList (childs ++ [child]) :: rest)
  | _ =>
    Except.error
      ("parent must be a tag or a fragment to add the node: " ++ child.variantName)

/-- The attach-or-keep tail of `child_to_parent` (src/macros.rs:494-510):
when the remaining stack is empty the popped node is pushed back; otherwise
it is appended to the children of the new top when that is a tag or a list,
and any other top panics. -/
def attach_popped (node : VNode) (rest : List VNode) :
    Except String (List VNode) :=
  match rest with
  | [] => Except.ok [node]
  | VNode.VTag tag ns attrs cls v k c ls childs :: rest2 =>
    Except.ok (VNode.VTag tag ns attrs cls v k c ls (childs ++ [node]) :: rest2)
  | VNode.VList childs :: rest2 =>
    Except.ok (VNode.VList (childs ++ [node]) :: rest2)
  | _ :: _ => Except.error "can't add child to this type of node"

/-- Embedding of `child_to_parent` (src/macros.rs:484-514): pop the top
node (empty stack panics "redundant closing tag"); when an expected closing
name was supplied and the popped node is a tag, panic unless the tag's name
equals it ASCII-case-insensitively; then attach the popped node to the new
top or push it back (`attach_popped`). -/
def child_to_parent (stack : List VNode) (endtag : Option String) :
    Except String (List VNode) :=
  match stack with
  | [] => Except.error ("redundant closing tag: " ++ fmt_debug_opt endtag)
  | node :: rest =>
    match node, endtag with
    | VNode.VTag starttag ns attrs cls v k c ls childs, some et =>
      if !(eq_ignore_ascii_case starttag et) then
        Except.error ("wrong closing tag: <" ++ starttag ++ "> -> </" ++ et ++ ">")
      else
        attach_popped (VNode.VTag starttag ns attrs cls v k c ls childs) rest
    | _, _ => attach_popped node rest

end Yew

namespace Yew

/-- The recursion of `proliferate_namespaces` over a child list is exactly a
map of the pass over each child. -/
theorem proliferate_childs_eq_map (childs : List VNode) (ns : Option String) :
    proliferate_childs childs ns
      = childs.map (fun child => proliferate_namespaces child ns) := by
  induction childs with
  | nil => rfl
  | cons child rest ih => simp [proliferate_childs, ih]

/-- Overwriting or inserting an attribute makes it present with exactly the
written value. -/
theorem get_attribute_set_attr (attrs : List (String × String))
    (name value : String) :
    get_attribute (set_attr attrs name value) name = some value := by
  induction attrs with
  | nil => simp [set_attr, get_attribute]
  | cons p rest ih =>
    obtain ⟨n, v⟩ := p
    by_cases h : (n == name) = true
    · simp [set_attr, get_attribute, h]
    · simp [set_attr, get_attribute, h, ih]

/-- Claim C1 (amended): child_to_parent pops the top node; an empty stack
fails fatally with the "redundant closing tag" error; a popped tag whose
name differs ASCII-case-insensitively from the expected close name fails
fatally naming both tags; a popped tag with a matching name is pushed back
when the stack became empty, is attached to a tag or list new top, and
fails fatally with "can't add child to this type of node" when the new top is
a text, component or reference node. -/
theorem child_to_parent_spec (expected tagname : String) (tns : Option String)
    (attrs : List (String × String)) (cls : List String) (v k : Option String)
    (c : Bool) (ls : List Nat) (childs : List VNode) (rest : List VNode) :
    child_to_parent [] (some expected)
        = Except.error ("redundant closing tag: " ++ fmt_debug_opt (some expected))
    ∧ (eq_ignore_ascii_case tagname expected = false →
        child_to_parent (VNode.VTag tagname tns attrs cls v k c ls childs :: rest)
            (some expected)
          = Except.error
              ("wrong closing tag: <" ++ tagname ++ "> -> </" ++ expected ++ ">"))
    ∧ (eq_ignore_ascii_case tagname expected = true →
        child_to_parent [VNode.VTag tagname tns attrs cls v k c ls childs]
            (some expected)
          = Except.ok [VNode.VTag tagname tns attrs cls v k c ls childs]
        ∧ (∀ pt ptns pattrs pcls pv pk pc pls pchilds rest2,
            child_to_parent
                (VNode.VTag tagname tns attrs cls v k c ls childs ::
                  VNode.VTag pt ptns pattrs pcls pv pk pc pls pchilds :: rest2)
                (some expected)
              = Except.ok
                  (VNode.VTag pt ptns pattrs pcls pv pk pc pls
                    (pchilds ++ [VNode.VTag tagname tns attrs cls v k c ls childs])
                    :: rest2))
        ∧ (∀ lchilds rest2,
            child_to_parent
                (VNode.VTag tagname tns attrs cls v k c ls childs ::
                  VNode.VList lchilds :: rest2) (some expected)
              = Except.ok
                  (VNode.VList
                    (lchilds ++ [VNode.VTag tagname tns attrs cls v k c ls childs])
                    :: rest2))
        ∧ (∀ s rest2,
            child_to_parent
                (VNode.VTag tagname tns attrs cls v k c ls childs ::
                  VNode.VText s :: rest2) (some expected)
              = Except.error "can't add child to this type of node")
        ∧ (∀ i rest2,
            child_to_parent
                (VNode.VTag tagname tns attrs cls v k c ls childs ::
                  VNode.VComp i :: rest2) (some expected)
              = Except.error "can't add child to this type of node")
        ∧ (∀ i rest2,
            child_to_parent
                (VNode.VTag tagname tns attrs cls v k c ls childs ::
                  VNode.VRef i :: rest2) (some expected)
              = Except.error "can't add child to this type of node")) := by
  refine ⟨rfl, ?_, ?_⟩
  · intro h
    simp [child_to_parent, h]
  · intro h
    refine ⟨?_, ?_, ?_, ?_, ?_, ?_⟩ <;>
      simp [child_to_parent, attach_popped, h]

/-- Claim C1 witness: a tag named "div" closed as "DIV" succeeds on a
singleton stack, and closed as "span" fails naming both tags. -/
theorem child_to_parent_spec_witness :
    child_to_parent [VNode.VTag "div" none [] [] none none false [] []]
        (some "DIV")
      = Except.ok [VNode.VTag "div" none [] [] none none false [] []]
    ∧ child_to_parent [VNode.VTag "div" none [] [] none none false [] []]
        (some "span")
      = Except.error "wrong closing tag: <div> -> </span>" :=
  ⟨((child_to_parent_spec "DIV" "div" none [] [] none none false [] [] []).2.2
      (by decide)).1,
   (child_to_parent_spec "span" "div" none [] [] none none false [] [] []).2.1
      (by decide)⟩

/-- Claim C1 counterexample to the claim as stated: the popped node is a tag
named "a" and the expected close name matches it, yet the call does not
succeed, because the new top is a text node which accepts no children. -/
theorem child_to_parent_match_can_fail :
    child_to_parent
        [VNode.VTag "a" none [] [] none none false [] [], VNode.VText "t"]
        (some "a")
      = Except.error "can't add child to this type of node" := by rfl

/-- Claim C2: unpack fails with the fixed length message whenever the stack
length is not exactly 1; on a singleton stack it pops the sole node, runs
the namespace-propagation pass over it with no inherited namespace and
returns the result. -/
theorem unpack_spec :
    (∀ stack : List VNode, stack.length ≠ 1 →
        unpack stack = Except.error LENGTH_ERROR)
    ∧ (∀ node : VNode,
        unpack [node] = Except.ok (proliferate_namespaces node none)) := by
  constructor
  · intro stack h
    simp [unpack, h]
  · intro node
    rfl

/-- Claim C2 witness: the empty stack fails with the fixed message and a
singleton text stack returns its (propagation-invariant) node. -/
theorem unpack_spec_witness :
    unpack ([] : List VNode) = Except.error LENGTH_ERROR
    ∧ unpack [VNode.VText "x"] = Except.ok (VNode.VText "x") :=
  ⟨unpack_spec.1 [] (by decide), unpack_spec.2 (VNode.VText "x")⟩

/-- Claim C3: a tag with an explicit namespace keeps it and propagates it to
all its children; a tag without one adopts the inherited namespace and
propagates that same value; a list passes the inherited namespace through
unchanged without carrying one; text, component and reference nodes are
untouched. -/
theorem proliferate_namespaces_spec (ns : Option String) (u tag s : String)
    (attrs : List (String × String)) (cls : List String) (v k : Option String)
    (c : Bool) (ls : List Nat) (childs : List VNode) (i j : Nat) :
    proliferate_namespaces (VNode.VTag tag (some u) attrs cls v k c ls childs) ns
        = VNode.VTag tag (some u) attrs cls v k c ls
            (childs.map (fun child => proliferate_namespaces child (some u)))
    ∧ proliferate_namespaces (VNode.VTag tag none attrs cls v k c ls childs) ns
        = VNode.VTag tag ns attrs cls v k c ls
            (childs.map (fun child => proliferate_namespaces child ns))
    ∧ proliferate_namespaces (VNode.VList childs) ns
        = VNode.VList (childs.map (fun child => proliferate_namespaces child ns))
    ∧ proliferate_namespaces (VNode.VText s) ns = VNode.VText s
    ∧ proliferate_namespaces (VNode.VComp i) ns = VNode.VComp i
    ∧ proliferate_namespaces (VNode.VRef j) ns = VNode.VRef j := by
  refine ⟨?_, ?_, ?_, rfl, rfl, rfl⟩ <;>
    simp [proliferate_namespaces, proliferate_childs_eq_map]

/-- Claim C4: on a tag named "input" or "textarea" (ASCII-case-insensitively)
the value field is set; on any other tag a generic "value" attribute is
added; when the stack top is not a tag (or the stack is empty) the call
fails fatally naming the attempted value. -/
theorem set_value_or_attribute_spec (tag value s : String) (tns : Option String)
    (attrs : List (String × String)) (cls : List String) (v k : Option String)
    (c : Bool) (ls : List Nat) (childs rest : List VNode) (i : Nat) :
    ((eq_ignore_ascii_case tag "input" || eq_ignore_ascii_case tag "textarea")
        = true →
      set_value_or_attribute
          (VNode.VTag tag tns attrs cls v k c ls childs :: rest) value
        = Except.ok (VNode.VTag tag tns attrs cls (some value) k c ls childs :: rest))
    ∧ ((eq_ignore_ascii_case tag "input" || eq_ignore_ascii_case tag "textarea")
        = false →
      set_value_or_attribute
          (VNode.VTag tag tns attrs cls v k c ls childs :: rest) value
        = Except.ok
            (VNode.VTag tag tns (set_attr attrs "value" value) cls v k c ls childs
              :: rest))
    ∧ set_value_or_attribute (VNode.VList childs :: rest) value
        = Except.error ("no tag to set value: " ++ value)
    ∧ set_value_or_attribute (VNode.VText s :: rest) value
        = Except.error ("no tag to set value: " ++ value)
    ∧ set_value_or_attribute (VNode.VComp i :: rest) value
        = Except.error ("no tag to set value: " ++ value)
    ∧ set_value_or_attribute (VNode.VRef i :: rest) value
        = Except.error ("no tag to set value: " ++ value)
    ∧ set_value_or_attribute [] value
        = Except.error ("no tag to set value: " ++ value) := by
  refine ⟨?_, ?_, rfl, rfl, rfl, rfl, rfl⟩ <;> intro h <;>
    simp [set_value_or_attribute, h]

/-- Claim C4 witness: value on an "INPUT" tag sets the value field, value on
a "progress" tag adds a literal "value" attribute. -/
theorem set_value_or_attribute_spec_witness :
    set_value_or_attribute [VNode.VTag "INPUT" none [] [] none none false [] []] "x"
      = Except.ok [VNode.VTag "INPUT" none [] [] (some "x") none false [] []]
    ∧ set_value_or_attribute
        [VNode.VTag "progress" none [] [] none none false [] []] "x"
      = Except.ok
          [VNode.VTag "progress" none [("value", "x")] [] none none false [] []] :=
  ⟨(set_value_or_attribute_spec "INPUT" "x" "" none [] [] none none false [] [] [] 0).1
      (by decide),
   (set_value_or_attribute_spec "progress" "x" "" none [] [] none none false [] [] [] 0).2.1
      (by decide)⟩

end Yew

namespace Yew

/-- Claim C5: the disabled rule adds the attribute "disabled" with literal
value "true" exactly when the expression is truthy, and the selected rule
adds "selected" with literal value "selected" exactly when truthy; when the
expression is falsy the stack is left untouched, so an absent attribute
stays entirely absent rather than being set to a false value. -/
theorem conditional_attribute_spec (stack : List VNode) (tag : String)
    (tns : Option String) (attrs : List (String × String)) (cls : List String)
    (v k : Option String) (c : Bool) (ls : List Nat) (childs rest : List VNode) :
    disabled_rule (VNode.VTag tag tns attrs cls v k c ls childs :: rest) true
        = Except.ok
            (VNode.VTag tag tns (set_attr attrs "disabled" "true") cls v k c ls childs
              :: rest)
    ∧ get_attribute (set_attr attrs "disabled" "true") "disabled" = some "true"
    ∧ disabled_rule stack false = Except.ok stack
    ∧ (∀ stack2,
        disabled_rule (VNode.VTag tag tns attrs cls v k c ls childs :: rest) false
            = Except.ok stack2 →
        has_attribute attrs "disabled" = false →
        has_attribute (top_attributes stack2) "disabled" = false)
    ∧ selected_rule (VNode.VTag tag tns attrs cls v k c ls childs :: rest) true
        = Except.ok
            (VNode.VTag tag tns (set_attr attrs "selected" "selected") cls v k c ls
              childs :: rest)
    ∧ get_attribute (set_attr attrs "selected" "selected") "selected"
        = some "selected"
    ∧ selected_rule stack false = Except.ok stack
    ∧ (∀ stack2,
        selected_rule (VNode.VTag tag tns attrs cls v k c ls childs :: rest) false
            = Except.ok stack2 →
        has_attribute attrs "selected" = false →
        has_attribute (top_attributes stack2) "selected" = false) := by
  refine ⟨rfl, get_attribute_set_attr attrs "disabled" "true", rfl, ?_, rfl,
    get_attribute_set_attr attrs "selected" "selected", rfl, ?_⟩ <;>
  · intro stack2 he h
    simp [disabled_rule, selected_rule] at he
    subst he
    simpa [top_attributes] using h

/-- Claim C5 witness: on a fresh button tag, a truthy disabled adds the
attribute with value "true", a falsy one leaves the stack unchanged and the
attribute absent. -/
theorem conditional_attribute_spec_witness :
    disabled_rule [VNode.VTag "button" none [] [] none none false [] []] true
        = Except.ok
            [VNode.VTag "button" none [("disabled", "true")] [] none none false [] []]
    ∧ disabled_rule [VNode.VTag "button" none [] [] none none false [] []] false
        = Except.ok [VNode.VTag "button" none [] [] none none false [] []]
    ∧ has_attribute
        (top_attributes [VNode.VTag "button" none [] [] none none false [] []])
        "disabled" = false :=
  ⟨(conditional_attribute_spec
      [VNode.VTag "button" none [] [] none none false [] []]
      "button" none [] [] none none false [] [] []).1,
   (conditional_attribute_spec
      [VNode.VTag "button" none [] [] none none false [] []]
      "button" none [] [] none none false [] [] []).2.2.1,
   (conditional_attribute_spec
      [VNode.VTag "button" none [] [] none none false [] []]
      "button" none [] [] none none false [] [] []).2.2.2.1
      [VNode.VTag "button" none [] [] none none false [] []] rfl (by decide)⟩

/-- Claim C6: add_child appends the child to the children of a tag or list
at the top of the stack, after all previously appended siblings; a text,
component or reference top, and an empty stack, fail fatally. -/
theorem add_child_spec (child : VNode) (tag s : String) (tns : Option String)
    (attrs : List (String × String)) (cls : List String) (v k : Option String)
    (c : Bool) (ls : List Nat) (childs rest : List VNode) (i j : Nat) :
    add_child (VNode.VTag tag tns attrs cls v k c ls childs :: rest) child
        = Except.ok
            (VNode.VTag tag tns attrs cls v k c ls (childs ++ [child]) :: rest)
    ∧ add_child (VNode.VList childs :: rest) child
        = Except.ok (VNode.VList (childs ++ [child]) :: rest)
    ∧ add_child (VNode.VText s :: rest) child
        = Except.error
            ("parent must be a tag or a fragment to add the node: "
              ++ child.variantName)
    ∧ add_child (VNode.VComp i :: rest) child
        = Except.error
            ("parent must be a tag or a fragment to add the node: "
              ++ child.variantName)
    ∧ add_child (VNode.VRef j :: rest) child
        = Except.error
            ("parent must be a tag or a fragment to add the node: "
              ++ child.variantName)
    ∧ add_child [] child
        = Except.error
            ("parent must be a tag or a fragment to add the node: "
              ++ child.variantName) :=
  ⟨rfl, rfl, rfl, rfl, rfl, rfl⟩

/-- Claim C7: the svg open rule pushes a tag named "svg" whose namespace is
already the fixed SVG namespace URI, while the generic open rule pushes a
tag with no namespace whatever its name. -/
theorem svg_namespace_spec (stack : List VNode) (name : String) :
    open_svg_rule stack
        = vtag_new "svg" (some "http://www.w3.org/2000/svg") :: stack
    ∧ open_tag_rule stack name = vtag_new name none :: stack
    ∧ VNode.tagNs (vtag_new "svg" (some "http://www.w3.org/2000/svg"))
        = some "http://www.w3.org/2000/svg"
    ∧ VNode.tagNs (vtag_new name none) = none :=
  ⟨rfl, rfl, rfl, rfl⟩

/-- The parenthesized class rule appends its tokens, in order, after any
class tokens already present on the tag at the top of the stack. -/
theorem class_list_rule_tag (tag : String) (tns : Option String)
    (attrs : List (String × String)) (v k : Option String) (c : Bool)
    (ls : List Nat) (childs rest : List VNode) (cs : List String) :
    ∀ cls, class_list_rule (VNode.VTag tag tns attrs cls v k c ls childs :: rest) cs
        = Except.ok (VNode.VTag tag tns attrs (cls ++ cs) v k c ls childs :: rest) := by
  induction cs with
  | nil => intro cls; simp [class_list_rule]
  | cons cl cs2 ih =>
    intro cls
    simpa [class_list_rule, append_class] using ih (cls ++ [cl])

/-- Claim C8: the parenthesized-list class form appends each listed token in
left-to-right order, additively to the classes already present, while the
single-expression form replaces the whole class attribute with its value. -/
theorem class_rules_spec (tag s : String) (tns : Option String)
    (attrs : List (String × String)) (cls : List String) (v k : Option String)
    (c : Bool) (ls : List Nat) (childs rest : List VNode) (cs : List String) :
    class_list_rule (VNode.VTag tag tns attrs cls v k c ls childs :: rest) cs
        = Except.ok (VNode.VTag tag tns attrs (cls ++ cs) v k c ls childs :: rest)
    ∧ set_classes (VNode.VTag tag tns attrs cls v k c ls childs :: rest) s
        = Except.ok (VNode.VTag tag tns attrs [s] v k c ls childs :: rest) :=
  ⟨class_list_rule_tag tag tns attrs v k c ls childs rest cs cls, rfl⟩

/-- Claim C9 counterexample to the claim as stated: with a list (fragment)
on top of the stack and a text node below it, closing with the name "div"
does not attach successfully: the attach step fails fatally because the new
top accepts no children. -/
theorem fragment_close_counterexample :
    child_to_parent [VNode.VList [], VNode.VText "t"] (some "div")
      = Except.error "can't add child to this type of node" := by rfl

/-- Claim C9 (amended): when the top of the stack is not a tag,
child_to_parent with a supplied close name performs no name verification:
the result is identical to closing with no name at all, for every supplied
name; in particular the popped node is retained as root when the stack
became empty, and attached successfully when the new top is a tag or a
list. -/
theorem fragment_close_spec (node : VNode) (rest : List VNode) (name : String)
    (h : VNode.isTag node = false) :
    child_to_parent (node :: rest) (some name) = child_to_parent (node :: rest) none
    ∧ child_to_parent [node] (some name) = Except.ok [node]
    ∧ (∀ tag tns attrs cls v k c ls childs rest2,
        child_to_parent
            (node :: VNode.VTag tag tns attrs cls v k c ls childs :: rest2)
            (some name)
          = Except.ok
              (VNode.VTag tag tns attrs cls v k c ls (childs ++ [node]) :: rest2))
    ∧ (∀ lchilds rest2,
        child_to_parent (node :: VNode.VList lchilds :: rest2) (some name)
          = Except.ok (VNode.VList (lchilds ++ [node]) :: rest2)) := by
  cases node <;> simp_all [VNode.isTag, child_to_parent, attach_popped]

/-- Claim C9 witness: a sole fragment on the stack is closed by the named
closing tag "div" without error. -/
theorem fragment_close_spec_witness :
    child_to_parent [VNode.VList []] (some "div") = Except.ok [VNode.VList []] :=
  (fragment_close_spec (VNode.VList []) [] "div" (by decide)).2.1

/-- Claim C10: the empty template is accepted by the end-of-input rule with
an empty stack and only fails at runtime, in unpack, with the same fixed
message used for every stack whose length is not exactly 1. -/
theorem empty_template_spec :
    html_empty_template = Except.error LENGTH_ERROR
    ∧ (∀ stack : List VNode, stack.length ≠ 1 →
        unpack stack = Except.error LENGTH_ERROR) := by
  constructor
  · rfl
  · intro stack h
    simp [unpack, h]

/-- Claim C10 witness: a two-element stack fails with the same fixed
message as the empty template. -/
theorem empty_template_spec_witness :
    unpack [VNode.VText "a", VNode.VText "b"] = Except.error LENGTH_ERROR :=
  empty_template_spec.2 [VNode.VText "a", VNode.VText "b"] (by decide)

end Yew
